import Mathlib

/-!
Shallow embedding of the voxseg front-end (willh003/voxseg):
`src/voxseg/src/modules/server.py` (VoxSegServer) and
`src/voxseg/src/save_rgb_depth.py` (transformation_matrix_of_pose).

The collaborator classes `BackendData` (modules/data.py) and `VoxelWorld`
(modules/voxel_world.py) are not part of the two source files; where a claim
depends on their behaviour they are modelled from the specification, and every
such definition is marked `Modelled from the spec:` in its doc comment.
Machine floats are embedded as rationals; the VoxelWorld / reconstruction
engine is embedded as a trace of the calls the server makes into it.
-/

/-! ## Label wire encoding (server.py lines 62-63) -/

/-- Encoding `voxel_classes_unsigned = voxel_classes + 1` followed by `.byte()`:
torch's `.byte()` reinterprets an integer value modulo 256 as an unsigned
byte, so the wire byte of a label `l` is `(l + 1) mod 256`. -/
def encodeLabel (l : Int) : Nat := ((l + 1) % 256).toNat

/-- The decoding direction described by the spec: subtract the +1 offset
from the received byte. -/
def decodeLabel (b : Nat) : Int := (b : Int) - 1

/-! ## Pose resolver (save_rgb_depth.py, `transformation_matrix_of_pose`) -/

/-- The error type the spec names for a near-zero-norm quaternion.  It does
not occur anywhere in the source. -/
structure DegeneratePoseError where
deriving DecidableEq, Repr

/-- Squared Euclidean norm of the quaternion components of a 7-element pose
`[tx, ty, tz, qx, qy, qz, qw]` (`np.linalg.norm(quat)` squared). -/
def quatNormSq (pose : List ℚ) : ℚ :=
  let qx := pose.getD 3 0
  let qy := pose.getD 4 0
  let qz := pose.getD 5 0
  let qw := pose.getD 6 0
  qx ^ 2 + qy ^ 2 + qz ^ 2 + qw ^ 2

/-- Modelled from the spec: `SO3.from_quaternion` of the external `liegroups`
library (ordering `'xyzw'`) is not in the source tree; the spec prescribes
"the standard quaternion-to-rotation-matrix formula" applied to the
normalized quaternion.  The source first divides the quaternion by its
Euclidean norm; folding that division into the quadratic formula turns every
entry into a rational function of the raw components (each quadratic term is
divided by the squared norm), which is what is embedded here.

The source performs NO norm check and has no failure path (a zero norm makes
numpy emit non-finite values silently); the codomain is `Except` only so that
the spec's claimed failure mode is statable — the result is always `.ok`. -/
def transformation_matrix_of_pose (pose : List ℚ) :
    Except DegeneratePoseError (List (List ℚ)) :=
  let tx := pose.getD 0 0
  let ty := pose.getD 1 0
  let tz := pose.getD 2 0
  let qx := pose.getD 3 0
  let qy := pose.getD 4 0
  let qz := pose.getD 5 0
  let qw := pose.getD 6 0
  let n2 := qx ^ 2 + qy ^ 2 + qz ^ 2 + qw ^ 2
  Except.ok
    [[1 - 2 * (qy ^ 2 + qz ^ 2) / n2, 2 * (qx * qy - qz * qw) / n2,
      2 * (qx * qz + qy * qw) / n2, tx],
     [2 * (qx * qy + qz * qw) / n2, 1 - 2 * (qx ^ 2 + qz ^ 2) / n2,
      2 * (qy * qz - qx * qw) / n2, ty],
     [2 * (qx * qz - qy * qw) / n2, 2 * (qy * qz + qx * qw) / n2,
      1 - 2 * (qx ^ 2 + qy ^ 2) / n2, tz],
     [0, 0, 0, 1]]

/-- The 7-element pose whose quaternion is the zero quaternion. -/
def zeroQuatPose : List ℚ := [0, 0, 0, 0, 0, 0, 0]

/-- The 7-element pose whose quaternion is the identity rotation
`(x, y, z, w) = (0, 0, 0, 1)` and whose translation is zero. -/
def identityQuatPose : List ℚ := [0, 0, 0, 0, 0, 0, 1]

/-! ## Server data model (server.py, VoxSegServer) -/

/-- An RGB image: rows of pixels, each pixel a list of channel values. -/
abbrev RgbImage := List (List (List Int))

/-- A depth image: rows of scalar depth values. -/
abbrev DepthImage := List (List Int)

/-- One synchronized frame as buffered by `BackendData.add_depth_image`:
the (possibly channel-transformed) RGB array, the depth array, and the
4x4 extrinsics matrix. -/
structure Frame where
  rgb : RgbImage
  depth : DepthImage
  extrinsics : List (List ℚ)
deriving DecidableEq, Repr

/-- The class/prompt vocabulary handed to `VoxelWorld.get_voxel_classes`:
either the flat class list or the prompt mapping. -/
inductive Vocab where
  | flat (cs : List String)
  | grouped (ps : List (String × List String))
deriving DecidableEq, Repr

/-- One call the server makes into the reconstruction engine (`VoxelWorld`). -/
inductive EngineEvent where
  | update (batch : List Frame)
  | query (v : Vocab) (minPts : Nat)
  | reset
deriving DecidableEq, Repr

/-- The class registry held by `BackendData` (`classes`, `prompts`,
`use_prompts`), wholesale-replaced by `add_class_info`. -/
structure ClassInfo where
  classes : List String
  prompts : List (String × List String)
  use_prompts : Bool
deriving DecidableEq, Repr

/-- Modelled from the spec: `BackendData.__init__` is not in the source
tree; the spec has the ClassRegistry "created at process start (possibly
empty/unset)", so the never-set registry is the empty class list, empty
prompt mapping, and a false `use_prompts` flag. -/
def initClassInfo : ClassInfo := ⟨[], [], false⟩

/-- The mutable state of `VoxSegServer`: the pending frame sequence and the
registry (both inside `BackendData`), the server's `img_count`, and the
reconstruction engine embedded as the list of batches applied since its last
reset (`world`) together with the append-only log of calls made into it
(`engineLog`). -/
structure ServerState where
  pending : List Frame
  info : ClassInfo
  img_count : Nat
  world : List (List Frame)
  engineLog : List EngineEvent
deriving DecidableEq, Repr

/-- The state right after `VoxSegServer.__init__`. -/
def initState : ServerState := ⟨[], initClassInfo, 0, [], []⟩

/-- Modelled from the spec: `BackendData.get_tensors` is not in the source
tree.  Per spec 4.3 (`flush`) and the call-site docstring in server.py, it
returns the pending sequence (converted to tensors) when non-empty and
empties it, and returns an explicit "nothing pending" (`None`) when the
sequence is empty. -/
def get_tensors (s : ServerState) : Option (List Frame) × ServerState :=
  if s.pending.isEmpty then (none, s)
  else (some s.pending, { s with pending := [] })

/-- The result grid of `_handle_compute_request` (the `VoxelGrid` message):
the flattened byte-encoded labels, the engine-reported origin and per-axis
resolution, and the three sizes from `voxel_classes.size()`. -/
structure VoxelGridMsg where
  data : List Nat
  origin : List ℚ
  resolutions : List ℚ
  size_x : Nat
  size_y : Nat
  size_z : Nat
deriving DecidableEq, Repr

/-- The vocabulary the handler queries with: `if self.data.use_prompts:`
query with `self.data.prompts`, else with `self.data.classes`
(server.py lines 54-57). -/
def vocabOf (info : ClassInfo) : Vocab :=
  if info.use_prompts then Vocab.grouped info.prompts else Vocab.flat info.classes

/-- Embedding of `VoxSegServer._handle_compute_request` (server.py lines 45-78).
`query_fn` stands for the external `VoxelWorld.get_voxel_classes` (it maps
the engine's applied batches, the vocabulary and `MIN_PTS_IN_VOXEL` to the
3-D label grid); `origin` and `resolution` stand for the engine-reported
`voxel_origin` and `compute_resolution()`.  The handler flushes via
`get_tensors`, applies the batch to the engine when one is pending, queries
with prompts or classes per `use_prompts`, and byte-encodes the flattened
labels with the +1 offset. -/
def handle_compute_request
    (query_fn : List (List Frame) → Vocab → Nat → List (List (List Int)))
    (minPts : Nat) (origin resolution : List ℚ) (s : ServerState) :
    ServerState × VoxelGridMsg :=
  let p := get_tensors s
  let s1 := p.2
  let s2 := match p.1 with
    | some b =>
        { s1 with world := s1.world ++ [b],
                  engineLog := s1.engineLog ++ [EngineEvent.update b] }
    | none => s1
  let vocab := vocabOf s2.info
  let voxel_classes := query_fn s2.world vocab minPts
  let s3 := { s2 with engineLog := s2.engineLog ++ [EngineEvent.query vocab minPts] }
  let x := voxel_classes.length
  let y := (voxel_classes.getD 0 []).length
  let z := ((voxel_classes.getD 0 []).getD 0 []).length
  let flattened_voxels := (voxel_classes.flatten.flatten).map encodeLabel
  (s3, { data := flattened_voxels, origin := origin, resolutions := resolution,
         size_x := x, size_y := y, size_z := z })

/-- The (already-decoded) payloads of one `DepthImageInfo` message: the
decoder `imgmsg_to_cv2` is an external collaborator, so the embedding starts
from its output arrays; `extrinsics` is the flat 16-element matrix field. -/
structure DepthImageMsg where
  rgb : RgbImage
  depth : DepthImage
  extrinsics : List ℚ
deriving DecidableEq, Repr

/-- Embedding of `np_image[:, :, ::-1]` (server.py line 91): reverse the channel axis of
every pixel ("convert to BGR"). -/
def bgrOfRgb (img : RgbImage) : RgbImage :=
  img.map (fun row => row.map List.reverse)

/-- Embedding of `extrinsics_1d.reshape(4,4)` (server.py line 97). -/
def reshape4x4 (v : List ℚ) : List (List ℚ) :=
  [v.take 4, (v.drop 4).take 4, (v.drop 8).take 4, (v.drop 12).take 4]

/-- The Frame that `_depth_image_callback` hands to
`BackendData.add_depth_image`: channel-reversed RGB, unchanged depth,
reshaped extrinsics. -/
def frameOfMsg (msg : DepthImageMsg) : Frame :=
  ⟨bgrOfRgb msg.rgb, msg.depth, reshape4x4 msg.extrinsics⟩

/-- Embedding of `VoxSegServer._depth_image_callback` (server.py lines 81-108), with the
configured `BATCH_SIZE` as `bsize` (`none` embeds Python's `None`).  The
frame is appended; then, only when `self.batch_size` is truthy (set and
non-zero), `img_count` is incremented, and reaching `batch_size` triggers
the internal flush and `batched_update_world`, after which `img_count` is
reset to 0. -/
def depth_image_callback (bsize : Option Nat) (msg : DepthImageMsg)
    (s : ServerState) : ServerState :=
  let s1 := { s with pending := s.pending ++ [frameOfMsg msg] }
  match bsize with
  | none => s1
  | some n =>
    if n = 0 then s1  -- Python: `if self.batch_size:` is falsy for 0
    else
      let s2 := { s1 with img_count := s1.img_count + 1 }
      if s2.img_count = n then
        match get_tensors s2 with
        | (some b, s3) =>
            { s3 with world := s3.world ++ [b],
                      engineLog := s3.engineLog ++ [EngineEvent.update b],
                      img_count := 0 }
        | (none, s3) => s3  -- unreachable: a frame was appended just above
      else s2

/-- Embedding of `VoxSegServer._reset_callback` (server.py lines 110-114):
`world.reset_world()` (modelled from the spec: resets the engine to its
empty initial state), `data.reset_all()` (modelled from the spec: clears the
pending sequence and the registry), and `img_count = 0`. -/
def reset_callback (s : ServerState) : ServerState :=
  { pending := [], info := initClassInfo, img_count := 0, world := [],
    engineLog := s.engineLog ++ [EngineEvent.reset] }

/-- The payloads of one `Classes` message. -/
structure ClassesMsg where
  classes : List String
  prompts : List (String × List String)
  use_prompts : Bool
deriving DecidableEq, Repr

/-- Embedding of `VoxSegServer._class_name_callback` (server.py lines 116-128):
wholesale-replaces the registry via `add_class_info` (modelled from the
spec: replacement is wholesale). -/
def class_name_callback (msg : ClassesMsg) (s : ServerState) : ServerState :=
  { s with info := ⟨msg.classes, msg.prompts, msg.use_prompts⟩ }

/-! ## First theorems -/

/-- C2: the wire encoding adds 1 to every label and truncates to an unsigned
byte (so the sentinel -1 encodes to 0), and for every integer label L in
[-1, 254] decoding the encoded byte by subtracting 1 yields L again. -/
theorem C2_label_roundtrip (L : Int) (h1 : -1 ≤ L) (h2 : L ≤ 254) :
    decodeLabel (encodeLabel L) = L ∧ encodeLabel (-1) = 0 := by
  constructor
  · simp only [decodeLabel, encodeLabel]
    omega
  · rfl

/-- Witness for C2 at the concrete label L = 7. -/
theorem C2_label_roundtrip_witness :
    decodeLabel (encodeLabel 7) = 7 ∧ encodeLabel (-1) = 0 :=
  C2_label_roundtrip 7 (by decide) (by decide)

/-- A constant stand-in for the external `get_voxel_classes`, used to
instantiate theorems at concrete inputs. -/
def constQueryFn : List (List Frame) → Vocab → Nat → List (List (List Int)) :=
  fun _ _ _ => [[[0]]]

/-- A concrete decoded sensor message. -/
def rgbMsg0 : DepthImageMsg :=
  ⟨[[[1, 2, 3]]], [[5]], [1, 0, 0, 0, 0, 1, 0, 0, 0, 0, 1, 0, 0, 0, 0, 1]⟩

/-- C1: a compute request flushes the accumulator; when frames are pending
the engine receives exactly one world-update call carrying all pending
frames in append (FIFO) order, immediately before the query; when nothing is
pending the update step is skipped and the query is still performed (the
handler is total, so a result grid is always returned). -/
theorem C1_flush_once_before_query
    (qf : List (List Frame) → Vocab → Nat → List (List (List Int)))
    (minPts : Nat) (o r : List ℚ) (s : ServerState) :
    ((handle_compute_request qf minPts o r s).1).engineLog =
      s.engineLog ++
        (if s.pending.isEmpty then [] else [EngineEvent.update s.pending]) ++
        [EngineEvent.query (vocabOf s.info) minPts] ∧
    ((handle_compute_request qf minPts o r s).1).pending = [] := by
  by_cases h : s.pending.isEmpty
  · have h' : s.pending = [] := by simpa using h
    simp [handle_compute_request, get_tensors, h, h']
  · simp [handle_compute_request, get_tensors, h, List.append_assoc]

/-- C3 counterexample: on the zero quaternion the pose resolver does not
fail — the source divides by the norm with no epsilon check and has no error
path, so the result is an `.ok` matrix (in this rational embedding the
division-by-zero junk values land on the identity block; in numpy they are
silent NaNs — either way, no `DegeneratePoseError` is raised). -/
theorem C3_zero_quat_returns_ok :
    transformation_matrix_of_pose zeroQuatPose =
      Except.ok [[1, 0, 0, 0], [0, 1, 0, 0], [0, 0, 1, 0], [0, 0, 0, 1]] := by
  simp only [transformation_matrix_of_pose, zeroQuatPose]
  norm_num

/-- C3 amended: the resolver divides the quaternion by its Euclidean norm
but performs no norm check and never raises `DegeneratePoseError` — it
succeeds (returns `.ok`) on every pose, the zero quaternion included, where
it silently yields a degenerate matrix; on the identity quaternion
(0,0,0,1) it succeeds with the identity transform. -/
theorem C3_amended_resolver_never_fails (pose : List ℚ) :
    (∃ M, transformation_matrix_of_pose pose = Except.ok M) ∧
    transformation_matrix_of_pose identityQuatPose =
      Except.ok [[1, 0, 0, 0], [0, 1, 0, 0], [0, 0, 1, 0], [0, 0, 0, 1]] :=
  ⟨⟨_, rfl⟩, by simp only [transformation_matrix_of_pose, identityQuatPose]; norm_num⟩

/-- C4 counterexample: with the never-set registry (empty classes, empty
prompts, `use_prompts` false) a compute request does not fail — it runs to
completion, querying the engine with the EMPTY flat class vocabulary and
returning a result grid; no `NoVocabularyConfiguredError` exists anywhere in
the source. -/
theorem C4_unset_registry_is_queried :
    ((handle_compute_request constQueryFn 1 [] [] initState).1).engineLog =
      [EngineEvent.query (Vocab.flat []) 1] ∧
    ((handle_compute_request constQueryFn 1 [] [] initState).2).data = [1] := by
  decide

/-- C4 amended: if the ClassRegistry has never been set, a compute request
does not fail; the handler queries the reconstruction engine with the empty
flat class vocabulary. -/
theorem C4_amended_empty_vocab_query
    (qf : List (List Frame) → Vocab → Nat → List (List (List Int)))
    (minPts : Nat) (o r : List ℚ) (s : ServerState)
    (h : s.info = initClassInfo) :
    EngineEvent.query (Vocab.flat []) minPts ∈
      ((handle_compute_request qf minPts o r s).1).engineLog := by
  by_cases hp : s.pending.isEmpty
  · simp [handle_compute_request, get_tensors, hp, h, vocabOf, initClassInfo]
  · simp [handle_compute_request, get_tensors, hp, h, vocabOf, initClassInfo]

/-- Witness for C4's amended claim at the initial state. -/
theorem C4_amended_empty_vocab_query_witness :
    EngineEvent.query (Vocab.flat []) 1 ∈
      ((handle_compute_request constQueryFn 1 [] [] initState).1).engineLog :=
  C4_amended_empty_vocab_query constQueryFn 1 [] [] initState rfl

/-- C7: after `_reset_callback`, regardless of prior state, a flush returns
"nothing pending", the registry is back to its unset value, the auto-flush
counter is zero, and the engine's applied-update state is empty. -/
theorem C7_reset_clears_everything (s : ServerState) :
    get_tensors (reset_callback s) = (none, reset_callback s) ∧
    (reset_callback s).info = initClassInfo ∧
    (reset_callback s).img_count = 0 ∧
    (reset_callback s).world = [] := by
  simp [get_tensors, reset_callback]

/-- C8 counterexample: the RGB payload stored in the emitted Frame is NOT
identical to the decoder's output — `np_image[:, :, ::-1]` reverses the
channel axis, so decoded pixel (1,2,3) is stored as (3,2,1). -/
theorem C8_rgb_channels_reversed :
    (depth_image_callback none rgbMsg0 initState).pending.map Frame.rgb =
      [[[[3, 2, 1]]]] ∧
    [[[(3 : Int), 2, 1]]] ≠ rgbMsg0.rgb := by
  decide

/-- C8 amended: the depth payload and the reshaped extrinsics are forwarded
unchanged to the Batch Accumulator, but the RGB payload has each pixel's
channel sequence reversed (RGB→BGR) before the Frame is emitted; no other
transformation is applied, and in manual mode the emitted Frame is appended
to the pending sequence as is. -/
theorem C8_amended_depth_unchanged_rgb_bgr (msg : DepthImageMsg)
    (s : ServerState) :
    (frameOfMsg msg).depth = msg.depth ∧
    (frameOfMsg msg).extrinsics = reshape4x4 msg.extrinsics ∧
    (frameOfMsg msg).rgb = msg.rgb.map (fun row => row.map List.reverse) ∧
    (depth_image_callback none msg s).pending = s.pending ++ [frameOfMsg msg] := by
  simp [frameOfMsg, bgrOfRgb, depth_image_callback]

/-- C10: with `batch_size` set to 0, `if self.batch_size:` is falsy, so an
append behaves exactly as in manual mode (`batch_size = None`): the counter
is never incremented, no world-update is triggered, and the frame is merely
appended to the pending sequence. -/
theorem C10_zero_batch_is_manual (msg : DepthImageMsg) (s : ServerState) :
    depth_image_callback (some 0) msg s = depth_image_callback none msg s ∧
    (depth_image_callback (some 0) msg s).img_count = s.img_count ∧
    (depth_image_callback (some 0) msg s).pending = s.pending ++ [frameOfMsg msg] ∧
    (depth_image_callback (some 0) msg s).world = s.world ∧
    (depth_image_callback (some 0) msg s).engineLog = s.engineLog := by
  simp [depth_image_callback]

/-- A sequence of decoded sensor messages handled one after another by
`_depth_image_callback`. -/
def appendRun (bsize : Option Nat) (msgs : List DepthImageMsg)
    (s : ServerState) : ServerState :=
  msgs.foldl (fun t msg => depth_image_callback bsize msg t) s

/-- A run of appends whose length completes the current batch window ends in
exactly one auto-flush: the engine receives the whole window as one update
and the accumulator is left empty with a zero counter. -/
theorem appendRun_auto_flush (n : Nat) (msgs : List DepthImageMsg) :
    ∀ s : ServerState, 0 < msgs.length → s.img_count = s.pending.length →
      s.img_count + msgs.length = n →
      appendRun (some n) msgs s =
        { s with
          pending := [],
          img_count := 0,
          world := s.world ++ [s.pending ++ msgs.map frameOfMsg],
          engineLog := s.engineLog ++
            [EngineEvent.update (s.pending ++ msgs.map frameOfMsg)] } := by
  induction msgs with
  | nil =>
    intro s h0 _ _
    simp at h0
  | cons msg rest ih =>
    intro s _ hc hn
    have hne : n ≠ 0 := by simp at hn; omega
    have hrun : appendRun (some n) (msg :: rest) s =
        appendRun (some n) rest (depth_image_callback (some n) msg s) := rfl
    by_cases hthr : s.img_count + 1 = n
    · have hrest : rest = [] := by
        have : rest.length = 0 := by simp at hn; omega
        exact List.length_eq_zero.mp this
      subst hrest
      rw [hrun]
      simp [appendRun, depth_image_callback, get_tensors, hne, hthr]
    · have hrest : 0 < rest.length := by simp at hn; omega
      have hstep : depth_image_callback (some n) msg s =
          { s with
            pending := s.pending ++ [frameOfMsg msg],
            img_count := s.img_count + 1 } := by
        simp [depth_image_callback, hne, hthr]
      rw [hrun, hstep]
      rw [ih _ hrest (by simp [hc]) (by simp at hn ⊢; omega)]
      simp [List.append_assoc]

/-- C5: with `batch_size` set to a positive `n`, the append that makes the
counter reach `n` itself triggers the flush: starting from a state with a
zero counter and empty pending sequence, a run of exactly `n` appends hands
the engine exactly one world-update containing the `n` frames in append
order, and leaves the counter at 0 and the pending sequence empty. -/
theorem C5_auto_flush_on_batch (n : Nat) (hn : 0 < n)
    (msgs : List DepthImageMsg) (s : ServerState)
    (hc : s.img_count = 0) (hp : s.pending = []) (hlen : msgs.length = n) :
    appendRun (some n) msgs s =
      { s with
        pending := [],
        img_count := 0,
        world := s.world ++ [msgs.map frameOfMsg],
        engineLog := s.engineLog ++
          [EngineEvent.update (msgs.map frameOfMsg)] } := by
  have h := appendRun_auto_flush n msgs s (by omega) (by simp [hc, hp])
    (by omega)
  simpa [hp] using h

/-- Witness for C5 with `batch_size = 2` and two concrete messages. -/
theorem C5_auto_flush_on_batch_witness :
    appendRun (some 2) [rgbMsg0, rgbMsg0] initState =
      { initState with
        pending := [],
        img_count := 0,
        world := initState.world ++ [[rgbMsg0, rgbMsg0].map frameOfMsg],
        engineLog := initState.engineLog ++
          [EngineEvent.update ([rgbMsg0, rgbMsg0].map frameOfMsg)] } :=
  C5_auto_flush_on_batch 2 (by decide) [rgbMsg0, rgbMsg0] initState rfl rfl rfl

/-- C6 counterexample: with `batch_size` unset (manual mode, `BATCH_SIZE =
None` is a documented configuration) one append yields a reachable state
whose counter is 0 while the pending sequence has length 1 — `img_count` is
only incremented inside `if self.batch_size:`, so it does NOT track the
pending length. -/
theorem C6_manual_append_breaks_invariant :
    (depth_image_callback none rgbMsg0 initState).img_count ≠
      (depth_image_callback none rgbMsg0 initState).pending.length := by
  decide

/-- The server states reachable from startup through ingestion (`append`),
class updates and resets, with a fixed configured batch size `n` and NO
compute requests. -/
inductive ReachIngest (n : Nat) : ServerState → Prop
  | init : ReachIngest n initState
  | image (msg : DepthImageMsg) {s : ServerState} :
      ReachIngest n s → ReachIngest n (depth_image_callback (some n) msg s)
  | classUpdate (msg : ClassesMsg) {s : ServerState} :
      ReachIngest n s → ReachIngest n (class_name_callback msg s)
  | reset {s : ServerState} :
      ReachIngest n s → ReachIngest n (reset_callback s)

/-- C6 amended: the counter-equals-pending-length invariant holds only when
`batch_size` is set to a positive value and no compute-request flush has
intervened: in every state reachable through ingestion, class updates and
resets alone the counter equals the pending length (so after an auto-flush
or reset both are zero/empty), but a compute-request flush empties the
pending sequence while leaving the counter unchanged. -/
theorem C6_amended_counter_invariant (n : Nat) (hn : 0 < n)
    (s : ServerState) (h : ReachIngest n s) :
    s.img_count = s.pending.length ∧
    ∀ (qf : List (List Frame) → Vocab → Nat → List (List (List Int)))
      (minPts : Nat) (o r : List ℚ),
      ((handle_compute_request qf minPts o r s).1).pending = [] ∧
      ((handle_compute_request qf minPts o r s).1).img_count = s.img_count := by
  have hne : n ≠ 0 := by omega
  constructor
  · induction h with
    | init => rfl
    | @image msg s hr ih =>
      by_cases hthr : s.img_count + 1 = n
      · simp [depth_image_callback, get_tensors, hne, hthr]
      · rw [ih] at hthr
        simp [depth_image_callback, hne, hthr, ih]
    | @classUpdate msg s hr ih => simpa [class_name_callback] using ih
    | @reset s hr ih => simp [reset_callback]
  · intro qf minPts o r
    by_cases hp : s.pending.isEmpty
    · have hp' : s.pending = [] := by simpa using hp
      simp [handle_compute_request, get_tensors, hp, hp']
    · simp [handle_compute_request, get_tensors, hp]

/-- Witness for C6's amended claim: the reachable state after one append
with `batch_size = 2`, and a concrete compute request on it. -/
theorem C6_amended_counter_invariant_witness :
    (depth_image_callback (some 2) rgbMsg0 initState).img_count =
      (depth_image_callback (some 2) rgbMsg0 initState).pending.length ∧
    ((handle_compute_request constQueryFn 1 [] []
        (depth_image_callback (some 2) rgbMsg0 initState)).1).pending = [] ∧
    ((handle_compute_request constQueryFn 1 [] []
        (depth_image_callback (some 2) rgbMsg0 initState)).1).img_count =
      (depth_image_callback (some 2) rgbMsg0 initState).img_count := by
  have h := C6_amended_counter_invariant 2 (by decide) _
    (ReachIngest.image rgbMsg0 ReachIngest.init)
  exact ⟨h.1, h.2 constQueryFn 1 [] []⟩
